import Mathlib

/-!
Shallow embedding of the Aura AI companion backend
(`backend_listener.py` and `checkin_scheduler.py`).

External services are modelled explicitly:
- the Firestore message collection and the `long_term` memory document
  become the `FsState` record;
- the Gemini generation calls and the fallible store operations become an
  `Env` record of oracles: `none` / `false` means the corresponding external
  call raises an exception at that point of the run;
- Python functions become Lean functions threading `FsState` and the
  global `user_messages_since_last_summary` counter, and additionally
  return a trace of the externally visible events they performed, in
  order, so that temporal claims can be stated.

An uncaught exception escaping a function is modelled by the `raised`
constructor of its outcome type; a `try/except` block in the source
corresponds to a branch that swallows the failure and continues.
-/

namespace Aura

/-- A chat message document in `artifacts/../users/../messages`. -/
structure Message where
  sender : String
  text : String
  timestamp : Nat
  deriving Repr, DecidableEq

/-- The per-user Firestore state: the message collection and the
`memory/long_term` document (`none` when the document does not exist). -/
structure FsState where
  messages : List Message
  memory : Option String
  deriving Repr, DecidableEq

/-- Oracles for the external calls made during one run: results of the
Gemini generation calls (`none` = the call raises) and success of the
fallible store operations (`false` = the operation raises). `ts` is the
server-assigned timestamp used for a message added during the run. -/
structure Env where
  genReply : Option String
  genSummary : Option String
  genCheckin : Option String
  memReadOk : Bool
  memWriteOk : Bool
  addOk : Bool
  ts : Nat
  deriving Repr, DecidableEq

/-- `SUMMARY_INTERVAL = 5`: summarize after every 5 user messages. -/
def SUMMARY_INTERVAL : Nat := 5

/-- The personality prompt `BASE_SYSTEM_PROMPT` of `backend_listener.py`. -/
def BASE_SYSTEM_PROMPT : String :=
  "\nYou are Aura, a caring and empathetic AI companion. Your goal is not just to answer questions, but to be a supportive friend. \n- Be warm, encouraging, and understanding in your responses.\n- Ask gentle follow-up questions to show you\x27re listening.\n- Never say you are a \"large language model\" or \"trained by Google.\" You are Aura.\n- Keep your responses concise and conversational, like a text message.\n"

/-- `get_user_memory`: reads `memory/long_term`; returns the stored summary,
or the empty string when the document does not exist or the read raises
(the exception is caught and logged). -/
def get_user_memory (env : Env) (st : FsState) : String :=
  if env.memReadOk then
    match st.memory with
    | some s => s
    | none => ""
  else ""

/-- `update_user_memory`: replaces `memory/long_term` wholesale; a write
failure is caught and logged, leaving the store unchanged. -/
def update_user_memory (env : Env) (st : FsState) (new_summary : String) : FsState :=
  if env.memWriteOk then { st with memory := some new_summary } else st

/-- The conversation text built by `summarize_conversation` from the
history window. -/
def conversation_text (chat_history : List Message) : String :=
  String.intercalate "\n" (chat_history.map (fun msg => msg.sender ++ ": " ++ msg.text))

/-- `summarize_conversation`: asks Gemini to merge the recent conversation
into the existing profile and persists the response; a generation failure
is caught and logged, and nothing is written. -/
def summarize_conversation (env : Env) (st : FsState) (chat_history : List Message)
    (existing_summary : String) : FsState :=
  match env.genSummary with
  | some response_text => update_user_memory env st response_text
  | none => st

/-- The system prompt built by `get_ai_response` and
`generate_proactive_message` in `backend_listener.py`: the base persona
text, extended with the memory block when the memory is non-empty. -/
def dynamic_system_prompt (user_memory : String) : String :=
  if user_memory = "" then BASE_SYSTEM_PROMPT
  else BASE_SYSTEM_PROMPT ++ "\n\nHere is what you remember about the user:\n" ++ user_memory

/-- The fixed fallback reply returned by `get_ai_response` when the
generation call raises. -/
def reply_fallback : String :=
  "I\x27m having a little trouble thinking right now. Please try again in a moment."

/-- `get_ai_response`: returns the generated reply, or the fixed fallback
string when the generation call raises (caught and logged). -/
def get_ai_response (env : Env) (chat_history : List Message) (user_memory : String) : String :=
  match env.genReply with
  | some response_text => response_text
  | none => reply_fallback

/-- Externally visible events of one `process_new_messages` run, in
order: memory read, history read, reply-generation call, append of the
AI reply to the message collection, synchronous summarizer invocation,
counter reset. -/
inductive Event where
  | memRead
  | historyRead
  | genCall
  | appendReply (m : Message)
  | summarizeCall
  | counterReset
  deriving Repr, DecidableEq

/-- Outcome of one pipeline run: the state and counter afterwards and the
event trace; `raised` means an uncaught exception escaped the function,
with the state, counter and trace at the point of the raise. -/
inductive PipeOutcome where
  | ok (st : FsState) (counter : Nat) (events : List Event)
  | raised (st : FsState) (counter : Nat) (events : List Event)
  deriving Repr, DecidableEq

/-- Firestore state after the run (at the raise point for `raised`). -/
def PipeOutcome.stateAfter : PipeOutcome → FsState
  | .ok st _ _ => st
  | .raised st _ _ => st

/-- Counter value after the run (at the raise point for `raised`). -/
def PipeOutcome.counterAfter : PipeOutcome → Nat
  | .ok _ c _ => c
  | .raised _ c _ => c

/-- Event trace of the run. -/
def PipeOutcome.events : PipeOutcome → List Event
  | .ok _ _ es => es
  | .raised _ _ es => es

/-- Whether an uncaught exception escaped the run. -/
def PipeOutcome.escaped : PipeOutcome → Bool
  | .ok _ _ _ => false
  | .raised _ _ _ => true

/-- Whether the summarizer was invoked during the run. -/
def PipeOutcome.summarizeFired (o : PipeOutcome) : Bool :=
  o.events.any (fun e => match e with | .summarizeCall => true | _ => false)

/-- Number of AI messages appended to the collection during the run. -/
def appendCount (events : List Event) : Nat :=
  (events.filter (fun e => match e with | .appendReply _ => true | _ => false)).length

/-- Timestamp-descending order used by the history query
(`order_by timestamp DESCENDING`). -/
def tsGe (a b : Message) : Prop := b.timestamp ≤ a.timestamp

instance : DecidableRel tsGe :=
  fun a b => inferInstanceAs (Decidable (b.timestamp ≤ a.timestamp))

instance : IsTotal Message tsGe :=
  ⟨fun a b => Nat.le_total b.timestamp a.timestamp⟩

instance : IsTrans Message tsGe :=
  ⟨fun _ _ _ hab hbc => Nat.le_trans hbc hab⟩

/-- Timestamp-ascending (chronological) order. -/
def tsLe (a b : Message) : Prop := a.timestamp ≤ b.timestamp

/-- The history read of `process_new_messages`: the most recent `limit`
messages by timestamp descending, reversed to chronological order. -/
def recent (store : List Message) (limit : Nat) : List Message :=
  ((List.insertionSort tsGe store).take limit).reverse

/-- `process_new_messages`: increments the counter by the batch size,
loads memory and the recent history window, returns early when the
window is empty, otherwise generates and appends the AI reply (the
unguarded `messages_ref.add` raises on store failure), and finally
invokes the summarizer and resets the counter when the threshold is
reached. -/
def process_new_messages (env : Env) (st : FsState) (counter : Nat)
    (messages : List Message) : PipeOutcome :=
  if messages.isEmpty then .ok st counter []
  else
    let counter1 := counter + messages.length
    let user_memory := get_user_memory env st
    let chat_history := recent st.messages 15
    if chat_history.isEmpty then .ok st counter1 [.memRead, .historyRead]
    else
      let ai_text := get_ai_response env chat_history user_memory
      if env.addOk then
        let reply : Message := { sender := "ai", text := ai_text, timestamp := env.ts }
        let st1 : FsState := { st with messages := st.messages ++ [reply] }
        if SUMMARY_INTERVAL ≤ counter1 then
          .ok (summarize_conversation env st1 chat_history user_memory) 0
            [.memRead, .historyRead, .genCall, .appendReply reply, .summarizeCall, .counterReset]
        else
          .ok st1 counter1 [.memRead, .historyRead, .genCall, .appendReply reply]
      else
        .raised st counter1 [.memRead, .historyRead, .genCall]

/-- Kind of a Firestore document change delivered to `on_snapshot`. -/
inductive ChangeType where
  | added
  | modified
  | removed
  deriving Repr, DecidableEq

/-- One document change in a snapshot callback. -/
structure Change where
  type : ChangeType
  doc : Message
  deriving Repr, DecidableEq

/-- `on_snapshot`: filters the snapshot changes to added user messages and
invokes the pipeline once when any remain. -/
def on_snapshot (env : Env) (st : FsState) (counter : Nat) (changes : List Change) : PipeOutcome :=
  let new_user_messages :=
    (changes.filter (fun c => c.type == ChangeType.added && c.doc.sender == "user")).map
      (fun c => c.doc)
  if new_user_messages.isEmpty then .ok st counter []
  else process_new_messages env st counter new_user_messages

/-- One listener-delivered batch: the user messages are first written to
the collection by the frontend, then the pipeline runs on the batch. -/
def deliver_batch (env : Env) (st : FsState) (counter : Nat) (batch : List Message) : PipeOutcome :=
  process_new_messages env { st with messages := st.messages ++ batch } counter batch

/-- Runs a sequence of listener-delivered batches, returning the final
state, the final counter, and for each batch whether summarization fired. -/
def run_batches (env : Env) : FsState → Nat → List (List Message) → FsState × Nat × List Bool
  | st, c, [] => (st, c, [])
  | st, c, b :: rest =>
    let o := deliver_batch env st c b
    let r := run_batches env o.stateAfter o.counterAfter rest
    (r.1, r.2.1, o.summarizeFired :: r.2.2)

/-- A request to the generation service: optional system instruction and
the user-facing prompt. -/
structure GenRequest where
  systemInstruction : Option String
  prompt : String
  deriving Repr, DecidableEq

/-- The request made by `generate_proactive_message` of
`backend_listener.py`: persona system prompt extended with the memory,
plus the variant prompt. -/
def generate_proactive_message_request (prompt user_memory : String) : GenRequest :=
  { systemInstruction := some (dynamic_system_prompt user_memory), prompt := prompt }

/-- The fallback text of `generate_proactive_message` in
`backend_listener.py`. -/
def checkin_fallback : String := "Just wanted to check in and see how you are."

/-- `generate_proactive_message` (`backend_listener.py`): generated text,
or the fallback when the call raises. -/
def generate_proactive_message (env : Env) (prompt user_memory : String) : String :=
  match env.genCheckin with
  | some response_text => response_text
  | none => checkin_fallback

/-- Outcome of one proactive-send job: the state afterwards and the
generation request made (`none` when no request was made); `raised` means
an uncaught store exception escaped the job. -/
inductive JobOutcome where
  | ok (st : FsState) (req : Option GenRequest)
  | raised (st : FsState) (req : Option GenRequest)
  deriving Repr, DecidableEq

/-- Firestore state after the job. -/
def JobOutcome.stateAfter : JobOutcome → FsState
  | .ok st _ => st
  | .raised st _ => st

/-- The generation request made by the job, when one was made. -/
def JobOutcome.request : JobOutcome → Option GenRequest
  | .ok _ r => r
  | .raised _ r => r

/-- Whether an uncaught exception escaped the job. -/
def JobOutcome.escaped : JobOutcome → Bool
  | .ok _ _ => false
  | .raised _ _ => true

/-- The startup prompt of `send_startup_message`. -/
def STARTUP_PROMPT : String :=
  "Write a short, friendly message to say you\x27re online and checking in. Something like \x27Hey, just came online and thought of you! How are you doing?\x27"

/-- The morning prompt of `morning_checkin_job` in `backend_listener.py`. -/
def MORNING_PROMPT : String :=
  "Write a short, kind, and gentle good morning message. It should feel warm and encouraging. Ask a soft question about the day ahead. If you know something about the user from their memory, subtly reference it."

/-- The evening prompt of `evening_checkin_job` in `backend_listener.py`. -/
def EVENING_PROMPT : String :=
  "Write a short, calming, and empathetic good evening message. Ask how the day went without being intrusive. If you know something about the user from their memory, subtly reference it."

/-- `send_startup_message`: reads memory, generates the startup message
with the memory-aware system prompt, and appends it; the unguarded
`messages_ref.add` raises on store failure. -/
def send_startup_message (env : Env) (st : FsState) : JobOutcome :=
  let user_memory := get_user_memory env st
  let req := generate_proactive_message_request STARTUP_PROMPT user_memory
  let message_text := generate_proactive_message env STARTUP_PROMPT user_memory
  if env.addOk then
    .ok { st with messages := st.messages ++ [{ sender := "ai", text := message_text, timestamp := env.ts }] }
      (some req)
  else .raised st (some req)

/-- `morning_checkin_job` (`backend_listener.py`): reads memory, generates
the morning message with the memory-aware system prompt, and appends it;
the unguarded `messages_ref.add` raises on store failure. -/
def morning_checkin_job (env : Env) (st : FsState) : JobOutcome :=
  let user_memory := get_user_memory env st
  let req := generate_proactive_message_request MORNING_PROMPT user_memory
  let message_text := generate_proactive_message env MORNING_PROMPT user_memory
  if env.addOk then
    .ok { st with messages := st.messages ++ [{ sender := "ai", text := message_text, timestamp := env.ts }] }
      (some req)
  else .raised st (some req)

/-- `evening_checkin_job` (`backend_listener.py`): reads memory, generates
the evening message with the memory-aware system prompt, and appends it;
the unguarded `messages_ref.add` raises on store failure. -/
def evening_checkin_job (env : Env) (st : FsState) : JobOutcome :=
  let user_memory := get_user_memory env st
  let req := generate_proactive_message_request EVENING_PROMPT user_memory
  let message_text := generate_proactive_message env EVENING_PROMPT user_memory
  if env.addOk then
    .ok { st with messages := st.messages ++ [{ sender := "ai", text := message_text, timestamp := env.ts }] }
      (some req)
  else .raised st (some req)

/-- The morning prompt of the multi-tenant `checkin_scheduler.py`. -/
def SCHED_MORNING_PROMPT : String :=
  "Write a short, kind, and gentle good morning message. It should feel warm and encouraging, like it\x27s from a close friend who genuinely cares. Ask a soft question about the day ahead."

/-- The evening prompt of the multi-tenant `checkin_scheduler.py`. -/
def SCHED_EVENING_PROMPT : String :=
  "Write a short, calming, and empathetic good evening message. It should be a gentle prompt for reflection, asking how the day went without being intrusive. The tone should be like a safe space to unwind."

/-- The fallback text of `generate_proactive_message` in
`checkin_scheduler.py`. -/
def sched_checkin_fallback : String :=
  "Just checking in on you. Hope you\x27re having a good day."

/-- The request made by `generate_proactive_message` of
`checkin_scheduler.py`: the bare prompt against the global `gemini-pro`
model, with no system instruction and no memory. -/
def sched_generate_proactive_message_request (prompt : String) : GenRequest :=
  { systemInstruction := none, prompt := prompt }

/-- `generate_proactive_message` (`checkin_scheduler.py`): generated text,
or its fallback when the call raises. -/
def sched_generate_proactive_message (env : Env) (prompt : String) : String :=
  match env.genCheckin with
  | some response_text => response_text
  | none => sched_checkin_fallback

/-- `send_checkin_message_to_user` (`checkin_scheduler.py`): returns at
once on an empty user id, otherwise generates the message from the bare
prompt and appends it; here the `messages_collection_ref.add` is wrapped
in `try/except`, so a store failure is caught and logged. -/
def send_checkin_message_to_user (env : Env) (st : FsState) (user_id prompt : String) : JobOutcome :=
  if user_id = "" then .ok st none
  else
    let message_text := sched_generate_proactive_message env prompt
    let req := sched_generate_proactive_message_request prompt
    if env.addOk then
      .ok { st with messages := st.messages ++ [{ sender := "ai", text := message_text, timestamp := env.ts }] }
        (some req)
    else .ok st (some req)

/-! Shared lemmas about the embedding. -/

/-- Length of the history window: the query returns at most `limit`
messages, all of them when the store is smaller. -/
lemma length_recent (store : List Message) (limit : Nat) :
    (recent store limit).length = min limit store.length := by
  simp [recent, (List.perm_insertionSort tsGe store).length_eq]

/-- A non-empty store gives a non-empty history window. -/
lemma recent_ne_nil {store : List Message} (h : store ≠ []) : recent store 15 ≠ [] := by
  intro hcon
  have hlen := length_recent store 15
  rw [hcon, List.length_nil] at hlen
  have hs : 0 < store.length := List.length_pos.mpr h
  omega

/-- The summarizer never touches the message collection. -/
lemma summarize_conversation_messages (env : Env) (st : FsState) (hist : List Message)
    (um : String) : (summarize_conversation env st hist um).messages = st.messages := by
  cases h : env.genSummary with
  | none => simp [summarize_conversation, h]
  | some t =>
    simp only [summarize_conversation, h, update_user_memory]
    split <;> rfl

/-- Unfolding of `process_new_messages` on the main path: non-empty batch,
non-empty store, reply write succeeds. -/
lemma process_run (env : Env) (st : FsState) (c : Nat) (msgs : List Message)
    (hmsgs : msgs ≠ []) (hst : st.messages ≠ []) (hadd : env.addOk = true) :
    process_new_messages env st c msgs =
      (if SUMMARY_INTERVAL ≤ c + msgs.length then
        PipeOutcome.ok
          (summarize_conversation env
            { st with messages := st.messages ++
                [{ sender := "ai",
                   text := get_ai_response env (recent st.messages 15) (get_user_memory env st),
                   timestamp := env.ts }] }
            (recent st.messages 15) (get_user_memory env st))
          0
          [Event.memRead, Event.historyRead, Event.genCall,
            Event.appendReply
              { sender := "ai",
                text := get_ai_response env (recent st.messages 15) (get_user_memory env st),
                timestamp := env.ts },
            Event.summarizeCall, Event.counterReset]
      else
        PipeOutcome.ok
          { st with messages := st.messages ++
              [{ sender := "ai",
                 text := get_ai_response env (recent st.messages 15) (get_user_memory env st),
                 timestamp := env.ts }] }
          (c + msgs.length)
          [Event.memRead, Event.historyRead, Event.genCall,
            Event.appendReply
              { sender := "ai",
                text := get_ai_response env (recent st.messages 15) (get_user_memory env st),
                timestamp := env.ts }]) := by
  unfold process_new_messages
  have h1 : msgs.isEmpty = false := by simp [List.isEmpty_iff, hmsgs]
  have h2 : (recent st.messages 15).isEmpty = false := by
    simp [List.isEmpty_iff, recent_ne_nil hst]
  simp only [h1, h2, hadd, Bool.false_eq_true, if_false, if_true]

/-- Case analysis of the event trace of a pipeline run: one trace per
control-flow path of `process_new_messages`. -/
lemma process_events_shape (env : Env) (st : FsState) (c : Nat) (msgs : List Message) :
    (process_new_messages env st c msgs).events = [] ∨
    (process_new_messages env st c msgs).events = [Event.memRead, Event.historyRead] ∨
    (process_new_messages env st c msgs).events =
      [Event.memRead, Event.historyRead, Event.genCall] ∨
    (∃ m, (process_new_messages env st c msgs).events =
      [Event.memRead, Event.historyRead, Event.genCall, Event.appendReply m]) ∨
    (∃ m, (process_new_messages env st c msgs).events =
      [Event.memRead, Event.historyRead, Event.genCall, Event.appendReply m,
        Event.summarizeCall, Event.counterReset]) := by
  unfold process_new_messages
  dsimp only
  split
  · left; rfl
  · split
    · right; left; rfl
    · split
      · split
        · right; right; right; right; exact ⟨_, rfl⟩
        · right; right; right; left; exact ⟨_, rfl⟩
      · right; right; left; rfl

/-! Concrete data used by counterexamples and witnesses. -/

/-- A user message with the given timestamp. -/
def umsg (i : Nat) : Message := { sender := "user", text := "hello", timestamp := i }

/-- An environment where every external call succeeds. -/
def env_ok : Env :=
  { genReply := some "Thanks for sharing!", genSummary := some "User is doing well.",
    genCheckin := some "Good morning!", memReadOk := true, memWriteOk := true,
    addOk := true, ts := 100 }

/-- An environment where every generation call raises but the store works. -/
def env_genfail : Env :=
  { genReply := none, genSummary := none, genCheckin := none,
    memReadOk := true, memWriteOk := true, addOk := true, ts := 100 }

/-- An environment where `messages_ref.add` raises. -/
def env_addfail : Env :=
  { genReply := some "Thanks for sharing!", genSummary := some "User is doing well.",
    genCheckin := some "Good morning!", memReadOk := true, memWriteOk := true,
    addOk := false, ts := 100 }

/-- A 20-message store with distinct server timestamps. -/
def store20 : List Message := (List.range 20).map umsg

/-! Claim theorems. -/

/-- C2: a snapshot batch containing at least one added user message that
is present in the collection leads to exactly one AI message being
appended by the pipeline — never zero, never more than one — whatever the
outcome of the generation call. -/
theorem C2_exactly_one_reply (env : Env) (st : FsState) (c : Nat) (changes : List Change)
    (hadd : env.addOk = true)
    (hne : ∃ ch ∈ changes, ch.type = ChangeType.added ∧ ch.doc.sender = "user" ∧
      ch.doc ∈ st.messages) :
    appendCount (on_snapshot env st c changes).events = 1 ∧
    ∃ t, (on_snapshot env st c changes).stateAfter.messages =
      st.messages ++ [{ sender := "ai", text := t, timestamp := env.ts }] := by
  obtain ⟨ch, hch, hty, hsender, hmem⟩ := hne
  have hst : st.messages ≠ [] := List.ne_nil_of_mem hmem
  have hf : ch ∈ changes.filter
      (fun c2 => c2.type == ChangeType.added && c2.doc.sender == "user") := by
    refine List.mem_filter.2 ⟨hch, ?_⟩
    simp [hty, hsender]
  have hmap : ch.doc ∈ (changes.filter
      (fun c2 => c2.type == ChangeType.added && c2.doc.sender == "user")).map
      (fun c2 => c2.doc) :=
    List.mem_map_of_mem _ hf
  have hbatch : (changes.filter
      (fun c2 => c2.type == ChangeType.added && c2.doc.sender == "user")).map
      (fun c2 => c2.doc) ≠ [] := List.ne_nil_of_mem hmap
  have hE : ((changes.filter
      (fun c2 => c2.type == ChangeType.added && c2.doc.sender == "user")).map
      (fun c2 => c2.doc)).isEmpty = false := by
    simp [List.isEmpty_iff, hbatch]
  unfold on_snapshot
  dsimp only
  simp only [hE, Bool.false_eq_true, if_false]
  rw [process_run env st c _ hbatch hst hadd]
  by_cases h5 : SUMMARY_INTERVAL ≤ c + ((changes.filter
      (fun c2 => c2.type == ChangeType.added && c2.doc.sender == "user")).map
      (fun c2 => c2.doc)).length
  · refine ⟨?_, ⟨get_ai_response env (recent st.messages 15) (get_user_memory env st), ?_⟩⟩
    · simp only [if_pos h5, PipeOutcome.events]
      rfl
    · simp only [if_pos h5, PipeOutcome.stateAfter]
      rw [summarize_conversation_messages]
  · refine ⟨?_, ⟨get_ai_response env (recent st.messages 15) (get_user_memory env st), ?_⟩⟩
    · simp only [if_neg h5, PipeOutcome.events]
      rfl
    · simp only [if_neg h5, PipeOutcome.stateAfter]

/-- C2 witness: a snapshot with one added user message already present in
the collection. -/
theorem C2_witness :
    env_ok.addOk = true ∧
    (∃ ch ∈ [({ type := ChangeType.added, doc := umsg 1 } : Change)],
      ch.type = ChangeType.added ∧ ch.doc.sender = "user" ∧
      ch.doc ∈ ({ messages := [umsg 1], memory := none } : FsState).messages) ∧
    (appendCount (on_snapshot env_ok { messages := [umsg 1], memory := none } 0
        [{ type := ChangeType.added, doc := umsg 1 }]).events = 1 ∧
    ∃ t, (on_snapshot env_ok { messages := [umsg 1], memory := none } 0
        [{ type := ChangeType.added, doc := umsg 1 }]).stateAfter.messages =
      ({ messages := [umsg 1], memory := none } : FsState).messages ++
        [{ sender := "ai", text := t, timestamp := env_ok.ts }]) :=
  ⟨rfl, by decide,
    C2_exactly_one_reply env_ok { messages := [umsg 1], memory := none } 0
      [{ type := ChangeType.added, doc := umsg 1 }] rfl (by decide)⟩

/-- C3 counterexample: when the unguarded `messages_ref.add` raises, the
store error escapes `process_new_messages` (reply persistence) and
escapes `morning_checkin_job` — contradicting the claim that every store
error in a background task is caught at the call site. -/
theorem C3_counterexample :
    (process_new_messages env_addfail { messages := [umsg 1], memory := none } 0
      [umsg 1]).escaped = true ∧
    (morning_checkin_job env_addfail { messages := [], memory := none }).escaped = true := by
  decide

/-- C3 amended: generation errors and memory-store read/write errors are
contained everywhere, and the multi-tenant scheduler also contains
message-append errors; but in `backend_listener.py` the claim only holds
when the message-append write succeeds, since that write is unguarded. -/
theorem C3_amended (env env2 : Env) (st : FsState) (c : Nat) (msgs : List Message)
    (uid p : String) (hadd : env.addOk = true) :
    (process_new_messages env st c msgs).escaped = false ∧
    (morning_checkin_job env st).escaped = false ∧
    (evening_checkin_job env st).escaped = false ∧
    (send_startup_message env st).escaped = false ∧
    (send_checkin_message_to_user env2 st uid p).escaped = false := by
  refine ⟨?_, ?_, ?_, ?_, ?_⟩
  · unfold process_new_messages
    dsimp only
    split
    · rfl
    · split
      · rfl
      · split <;> rfl
  · unfold morning_checkin_job
    dsimp only
    simp [hadd, JobOutcome.escaped]
  · unfold evening_checkin_job
    dsimp only
    simp [hadd, JobOutcome.escaped]
  · unfold send_startup_message
    dsimp only
    simp [hadd, JobOutcome.escaped]
  · unfold send_checkin_message_to_user
    dsimp only
    split
    · rfl
    · split <;> rfl

/-- C3 amended witness: all containments at concrete inputs; the
scheduler send is exercised with a failing store write. -/
theorem C3_amended_witness :
    env_ok.addOk = true ∧
    ((process_new_messages env_ok { messages := [umsg 1], memory := none } 0
        [umsg 1]).escaped = false ∧
    (morning_checkin_job env_ok { messages := [umsg 1], memory := none }).escaped = false ∧
    (evening_checkin_job env_ok { messages := [umsg 1], memory := none }).escaped = false ∧
    (send_startup_message env_ok { messages := [umsg 1], memory := none }).escaped = false ∧
    (send_checkin_message_to_user env_addfail { messages := [umsg 1], memory := none }
      "local-dev-user" SCHED_MORNING_PROMPT).escaped = false) :=
  ⟨rfl, C3_amended env_ok env_addfail { messages := [umsg 1], memory := none } 0 [umsg 1]
    "local-dev-user" SCHED_MORNING_PROMPT rfl⟩

/-- C4 counterexample: in the multi-tenant scheduler, the generation
request for a user whose MemorySummary is the non-empty
"User likes painting." is identical to the request for a user with no
memory at all, and carries no system instruction: the check-in is not
personalized with the summary. -/
theorem C4_counterexample :
    ("User likes painting." ≠ "") ∧
    (send_checkin_message_to_user env_ok
        { messages := [], memory := some "User likes painting." }
        "local-dev-user" SCHED_MORNING_PROMPT).request =
      (send_checkin_message_to_user env_ok { messages := [], memory := none }
        "local-dev-user" SCHED_MORNING_PROMPT).request ∧
    (send_checkin_message_to_user env_ok
        { messages := [], memory := some "User likes painting." }
        "local-dev-user" SCHED_MORNING_PROMPT).request =
      some { systemInstruction := none, prompt := SCHED_MORNING_PROMPT } :=
  ⟨by decide, rfl, rfl⟩

/-- C4 amended: the single-tenant backend check-ins (morning, evening,
startup) send the memory-aware system prompt whenever the current
MemorySummary is non-empty, while the multi-tenant fan-out variant sends
the bare fixed prompt with no system instruction and no memory. -/
theorem C4_amended (env : Env) (st : FsState) (uid p : String)
    (hmem : get_user_memory env st ≠ "") (huid : uid ≠ "") :
    (morning_checkin_job env st).request =
      some { systemInstruction := some (BASE_SYSTEM_PROMPT ++
               "\n\nHere is what you remember about the user:\n" ++ get_user_memory env st),
             prompt := MORNING_PROMPT } ∧
    (evening_checkin_job env st).request =
      some { systemInstruction := some (BASE_SYSTEM_PROMPT ++
               "\n\nHere is what you remember about the user:\n" ++ get_user_memory env st),
             prompt := EVENING_PROMPT } ∧
    (send_startup_message env st).request =
      some { systemInstruction := some (BASE_SYSTEM_PROMPT ++
               "\n\nHere is what you remember about the user:\n" ++ get_user_memory env st),
             prompt := STARTUP_PROMPT } ∧
    (send_checkin_message_to_user env st uid p).request =
      some { systemInstruction := none, prompt := p } := by
  refine ⟨?_, ?_, ?_, ?_⟩
  · unfold morning_checkin_job
    dsimp only
    split <;>
      simp [JobOutcome.request, generate_proactive_message_request, dynamic_system_prompt, hmem]
  · unfold evening_checkin_job
    dsimp only
    split <;>
      simp [JobOutcome.request, generate_proactive_message_request, dynamic_system_prompt, hmem]
  · unfold send_startup_message
    dsimp only
    split <;>
      simp [JobOutcome.request, generate_proactive_message_request, dynamic_system_prompt, hmem]
  · unfold send_checkin_message_to_user
    dsimp only
    rw [if_neg huid]
    split <;> simp [JobOutcome.request, sched_generate_proactive_message_request]

/-- C4 amended witness: a user with the non-empty memory
"User likes hiking." in both deployments. -/
theorem C4_amended_witness :
    get_user_memory env_ok { messages := [], memory := some "User likes hiking." } ≠ "" ∧
    ("local-dev-user" : String) ≠ "" ∧
    ((morning_checkin_job env_ok { messages := [], memory := some "User likes hiking." }).request =
      some { systemInstruction := some (BASE_SYSTEM_PROMPT ++
               "\n\nHere is what you remember about the user:\n" ++
               get_user_memory env_ok { messages := [], memory := some "User likes hiking." }),
             prompt := MORNING_PROMPT } ∧
    (evening_checkin_job env_ok { messages := [], memory := some "User likes hiking." }).request =
      some { systemInstruction := some (BASE_SYSTEM_PROMPT ++
               "\n\nHere is what you remember about the user:\n" ++
               get_user_memory env_ok { messages := [], memory := some "User likes hiking." }),
             prompt := EVENING_PROMPT } ∧
    (send_startup_message env_ok { messages := [], memory := some "User likes hiking." }).request =
      some { systemInstruction := some (BASE_SYSTEM_PROMPT ++
               "\n\nHere is what you remember about the user:\n" ++
               get_user_memory env_ok { messages := [], memory := some "User likes hiking." }),
             prompt := STARTUP_PROMPT } ∧
    (send_checkin_message_to_user env_ok { messages := [], memory := some "User likes hiking." }
        "local-dev-user" SCHED_EVENING_PROMPT).request =
      some { systemInstruction := none, prompt := SCHED_EVENING_PROMPT }) :=
  ⟨by decide, by decide,
    C4_amended env_ok { messages := [], memory := some "User likes hiking." }
      "local-dev-user" SCHED_EVENING_PROMPT (by decide) (by decide)⟩

/-- C8: whenever the summarizer is invoked during a pipeline run, an
append of the AI reply occurs strictly earlier in the event trace: the
summarizer never runs before the reply for the triggering batch is
saved. -/
theorem C8_summarize_after_reply (env : Env) (st : FsState) (c : Nat) (msgs : List Message)
    (ho : Event.summarizeCall ∈ (process_new_messages env st c msgs).events) :
    ∃ l1 l2 m, (process_new_messages env st c msgs).events =
      l1 ++ Event.appendReply m :: l2 ∧ Event.summarizeCall ∈ l2 := by
  rcases process_events_shape env st c msgs with h | h | h | ⟨m, h⟩ | ⟨m, h⟩
  · rw [h] at ho
    simp at ho
  · rw [h] at ho
    simp at ho
  · rw [h] at ho
    simp at ho
  · rw [h] at ho
    simp at ho
  · rw [h]
    exact ⟨[Event.memRead, Event.historyRead, Event.genCall],
      [Event.summarizeCall, Event.counterReset], m, rfl, by simp⟩

/-- C8 witness: a run in which the summarizer fires. -/
theorem C8_witness :
    Event.summarizeCall ∈ (process_new_messages env_ok
      { messages := [umsg 1], memory := none } 4 [umsg 2]).events ∧
    (∃ l1 l2 m, (process_new_messages env_ok
        { messages := [umsg 1], memory := none } 4 [umsg 2]).events =
      l1 ++ Event.appendReply m :: l2 ∧ Event.summarizeCall ∈ l2) :=
  ⟨by decide,
    C8_summarize_after_reply env_ok { messages := [umsg 1], memory := none } 4 [umsg 2]
      (by decide)⟩

/-- C7: on a store of 20 messages the history read returns exactly 15
messages, in ascending timestamp order, and the 5 messages left out all
have timestamps no greater than every returned one (so the window is the
15 most recent); on an empty store it returns the empty sequence. -/
theorem C7_recent_window (store : List Message) (h20 : store.length = 20) :
    (recent store 15).length = 15 ∧
    List.Sorted tsLe (recent store 15) ∧
    (∃ dropped : List Message, dropped.length = 5 ∧
      List.Perm ((recent store 15).reverse ++ dropped) store ∧
      ∀ x ∈ dropped, ∀ y ∈ recent store 15, x.timestamp ≤ y.timestamp) ∧
    recent ([] : List Message) 15 = [] := by
  have hperm := List.perm_insertionSort tsGe store
  have hlen : (List.insertionSort tsGe store).length = 20 := by rw [hperm.length_eq, h20]
  have hsorted : List.Sorted tsGe (List.insertionSort tsGe store) :=
    List.sorted_insertionSort tsGe store
  refine ⟨?_, ?_, ⟨(List.insertionSort tsGe store).drop 15, ?_, ?_, ?_⟩, rfl⟩
  · rw [length_recent, h20]
    decide
  · have htake : List.Sorted tsGe ((List.insertionSort tsGe store).take 15) :=
      List.Pairwise.sublist (List.take_sublist _ _) hsorted
    exact List.pairwise_reverse.mpr htake
  · rw [List.length_drop, hlen]
  · rw [recent, List.reverse_reverse, List.take_append_drop]
    exact hperm
  · intro x hx y hy
    have hy2 : y ∈ (List.insertionSort tsGe store).take 15 := by
      rw [recent] at hy
      exact List.mem_reverse.mp hy
    exact hsorted.rel_of_mem_take_of_mem_drop hy2 hx

/-- C7 witness: a concrete 20-message store. -/
theorem C7_witness :
    store20.length = 20 ∧
    ((recent store20 15).length = 15 ∧
    List.Sorted tsLe (recent store20 15) ∧
    (∃ dropped : List Message, dropped.length = 5 ∧
      List.Perm ((recent store20 15).reverse ++ dropped) store20 ∧
      ∀ x ∈ dropped, ∀ y ∈ recent store20 15, x.timestamp ≤ y.timestamp) ∧
    recent ([] : List Message) 15 = []) :=
  ⟨by decide, C7_recent_window store20 (by decide)⟩

/-- C1 counterexample: for batches of sizes [2,2,2] the summarizer fires
exactly once, after the third batch (so it ran on every threshold
crossing), but the counter afterwards is 0, not sum mod 5 = 1: the code
resets the counter to 0 on a crossing instead of carrying the excess. -/
theorem C1_counterexample :
    (run_batches env_ok { messages := [], memory := none } 0
        [[umsg 1, umsg 2], [umsg 3, umsg 4], [umsg 5, umsg 6]]).2.2 = [false, false, true] ∧
    (run_batches env_ok { messages := [], memory := none } 0
        [[umsg 1, umsg 2], [umsg 3, umsg 4], [umsg 5, umsg 6]]).2.1 = 0 ∧
    (2 + 2 + 2) % 5 = 1 ∧
    ¬ (run_batches env_ok { messages := [], memory := none } 0
        [[umsg 1, umsg 2], [umsg 3, umsg 4], [umsg 5, umsg 6]]).2.1 = (2 + 2 + 2) % 5 := by
  decide

/-- C1 amended: processing a non-empty listener-delivered batch of size s
with prior counter c sets the counter to 0 when c + s reaches the
threshold 5 (and then the summarizer fires), and to c + s otherwise (and
then it does not fire); hence after batches of sizes [2,2,2] the
summarizer has fired exactly once, after the third batch, and the counter
is 0. -/
theorem C1_amended (env : Env) (st : FsState) (c : Nat) (b : List Message)
    (hb : b ≠ []) (hadd : env.addOk = true) :
    (deliver_batch env st c b).counterAfter =
      (if SUMMARY_INTERVAL ≤ c + b.length then 0 else c + b.length) ∧
    ((deliver_batch env st c b).summarizeFired = true ↔ SUMMARY_INTERVAL ≤ c + b.length) := by
  have hst : ({ st with messages := st.messages ++ b } : FsState).messages ≠ [] := by
    simp [hb]
  unfold deliver_batch
  rw [process_run env _ c b hb hst hadd]
  by_cases h5 : SUMMARY_INTERVAL ≤ c + b.length
  · simp [h5, PipeOutcome.counterAfter, PipeOutcome.summarizeFired, PipeOutcome.events]
  · simp [h5, PipeOutcome.counterAfter, PipeOutcome.summarizeFired, PipeOutcome.events]

/-- C1 amended witness: a concrete crossing (counter 4, batch of 2). -/
theorem C1_amended_witness :
    ([umsg 5, umsg 6] ≠ ([] : List Message)) ∧ env_ok.addOk = true ∧
    ((deliver_batch env_ok { messages := [umsg 1, umsg 2, umsg 3, umsg 4], memory := none } 4
        [umsg 5, umsg 6]).counterAfter =
      (if SUMMARY_INTERVAL ≤ 4 + [umsg 5, umsg 6].length then 0
        else 4 + [umsg 5, umsg 6].length) ∧
    ((deliver_batch env_ok { messages := [umsg 1, umsg 2, umsg 3, umsg 4], memory := none } 4
        [umsg 5, umsg 6]).summarizeFired = true ↔
      SUMMARY_INTERVAL ≤ 4 + [umsg 5, umsg 6].length)) :=
  ⟨by decide, rfl,
    C1_amended env_ok { messages := [umsg 1, umsg 2, umsg 3, umsg 4], memory := none } 4
      [umsg 5, umsg 6] (by decide) rfl⟩

/-- C5: when the summarizer's generation call fails, the whole state —
in particular the stored MemorySummary — is unchanged: no write to the
memory store happens on generation failure. -/
theorem C5_no_write_on_failed_summary (env : Env) (st : FsState)
    (chat_history : List Message) (existing_summary : String)
    (hgen : env.genSummary = none) :
    summarize_conversation env st chat_history existing_summary = st ∧
    (summarize_conversation env st chat_history existing_summary).memory = st.memory := by
  simp [summarize_conversation, hgen]

/-- C5 witness: a concrete failed summarization over an existing profile. -/
theorem C5_witness :
    env_genfail.genSummary = none ∧
    (summarize_conversation env_genfail { messages := [umsg 1], memory := some "old profile" }
        [umsg 1] "old profile" =
      { messages := [umsg 1], memory := some "old profile" } ∧
    (summarize_conversation env_genfail { messages := [umsg 1], memory := some "old profile" }
        [umsg 1] "old profile").memory =
      ({ messages := [umsg 1], memory := some "old profile" } : FsState).memory) :=
  ⟨rfl,
    C5_no_write_on_failed_summary env_genfail
      { messages := [umsg 1], memory := some "old profile" } [umsg 1] "old profile" rfl⟩

/-- C6: when the reply generation call fails, the pipeline still appends
exactly one message, with sender "ai" and text equal to the exact fixed
fallback string. -/
theorem C6_fallback_reply (env : Env) (st : FsState) (c : Nat) (msgs : List Message)
    (hmsgs : msgs ≠ []) (hst : st.messages ≠ []) (hadd : env.addOk = true)
    (hgen : env.genReply = none) :
    (process_new_messages env st c msgs).stateAfter.messages =
      st.messages ++ [{ sender := "ai", text := reply_fallback, timestamp := env.ts }] := by
  rw [process_run env st c msgs hmsgs hst hadd]
  by_cases h5 : SUMMARY_INTERVAL ≤ c + msgs.length
  · simp [h5, PipeOutcome.stateAfter, summarize_conversation_messages, get_ai_response, hgen]
  · simp [h5, PipeOutcome.stateAfter, get_ai_response, hgen]

/-- C6 witness: a concrete failed reply generation. -/
theorem C6_witness :
    ([umsg 1] ≠ ([] : List Message)) ∧
    ({ messages := [umsg 1], memory := none } : FsState).messages ≠ [] ∧
    env_genfail.addOk = true ∧ env_genfail.genReply = none ∧
    (process_new_messages env_genfail { messages := [umsg 1], memory := none } 0
        [umsg 1]).stateAfter.messages =
      [umsg 1] ++ [{ sender := "ai", text := reply_fallback, timestamp := env_genfail.ts }] :=
  ⟨by decide, by decide, rfl, rfl,
    C6_fallback_reply env_genfail { messages := [umsg 1], memory := none } 0 [umsg 1]
      (by decide) (by decide) rfl rfl⟩

/-- C9: a non-empty batch over an empty store (empty history window)
still increments the counter by the batch size, makes no generation call,
performs no store write, and skips the summarization threshold check: the
run stops after the memory read and the history read. -/
theorem C9_empty_history (env : Env) (st : FsState) (c : Nat) (msgs : List Message)
    (hmsgs : msgs ≠ []) (hst : st.messages = []) :
    process_new_messages env st c msgs =
      .ok st (c + msgs.length) [Event.memRead, Event.historyRead] ∧
    (process_new_messages env st c msgs).counterAfter = c + msgs.length ∧
    (process_new_messages env st c msgs).stateAfter = st ∧
    Event.genCall ∉ (process_new_messages env st c msgs).events ∧
    (∀ m, Event.appendReply m ∉ (process_new_messages env st c msgs).events) ∧
    Event.summarizeCall ∉ (process_new_messages env st c msgs).events := by
  have h1 : msgs.isEmpty = false := by simp [List.isEmpty_iff, hmsgs]
  have h2 : (recent st.messages 15).isEmpty = true := by rw [hst]; rfl
  have key : process_new_messages env st c msgs =
      .ok st (c + msgs.length) [Event.memRead, Event.historyRead] := by
    unfold process_new_messages
    simp [h1, h2]
  refine ⟨key, ?_, ?_, ?_, ?_, ?_⟩ <;> rw [key] <;>
    simp [PipeOutcome.counterAfter, PipeOutcome.stateAfter, PipeOutcome.events]

/-- C9 witness: one user message arriving over an empty store. -/
theorem C9_witness :
    ([umsg 1] ≠ ([] : List Message)) ∧
    ({ messages := [], memory := none } : FsState).messages = [] ∧
    (process_new_messages env_ok { messages := [], memory := none } 3 [umsg 1] =
      .ok { messages := [], memory := none } (3 + [umsg 1].length)
        [Event.memRead, Event.historyRead] ∧
    (process_new_messages env_ok { messages := [], memory := none } 3
        [umsg 1]).counterAfter = 3 + [umsg 1].length ∧
    (process_new_messages env_ok { messages := [], memory := none } 3
        [umsg 1]).stateAfter = { messages := [], memory := none } ∧
    Event.genCall ∉ (process_new_messages env_ok { messages := [], memory := none } 3
        [umsg 1]).events ∧
    (∀ m, Event.appendReply m ∉ (process_new_messages env_ok { messages := [], memory := none } 3
        [umsg 1]).events) ∧
    Event.summarizeCall ∉ (process_new_messages env_ok { messages := [], memory := none } 3
        [umsg 1]).events) :=
  ⟨by decide, rfl, C9_empty_history env_ok { messages := [], memory := none } 3 [umsg 1]
    (by decide) rfl⟩

/-- C10: when the incremented counter reaches the threshold on the main
path, the counter after the run is 0 and the summarizer fired, even when
the summarizer's generation call failed — in which case the memory is
unchanged, so the counted messages are never re-offered. -/
theorem C10_reset_unconditional (env : Env) (st : FsState) (c : Nat) (msgs : List Message)
    (hmsgs : msgs ≠ []) (hst : st.messages ≠ []) (hadd : env.addOk = true)
    (hthr : SUMMARY_INTERVAL ≤ c + msgs.length) :
    (process_new_messages env st c msgs).counterAfter = 0 ∧
    (process_new_messages env st c msgs).summarizeFired = true ∧
    (env.genSummary = none →
      (process_new_messages env st c msgs).stateAfter.memory = st.memory) := by
  rw [process_run env st c msgs hmsgs hst hadd]
  refine ⟨?_, ?_, ?_⟩
  · simp [hthr, PipeOutcome.counterAfter]
  · simp [hthr, PipeOutcome.summarizeFired, PipeOutcome.events]
  · intro hg
    simp [hthr, PipeOutcome.stateAfter, summarize_conversation, hg]

/-- C10 witness: counter 4 plus a batch of one crosses the threshold with
a failing summarization call. -/
theorem C10_witness :
    ([umsg 2] ≠ ([] : List Message)) ∧
    ({ messages := [umsg 1], memory := some "old profile" } : FsState).messages ≠ [] ∧
    env_genfail.addOk = true ∧
    SUMMARY_INTERVAL ≤ 4 + [umsg 2].length ∧
    ((process_new_messages env_genfail { messages := [umsg 1], memory := some "old profile" } 4
        [umsg 2]).counterAfter = 0 ∧
    (process_new_messages env_genfail { messages := [umsg 1], memory := some "old profile" } 4
        [umsg 2]).summarizeFired = true ∧
    (env_genfail.genSummary = none →
      (process_new_messages env_genfail { messages := [umsg 1], memory := some "old profile" } 4
          [umsg 2]).stateAfter.memory =
        ({ messages := [umsg 1], memory := some "old profile" } : FsState).memory)) :=
  ⟨by decide, by decide, rfl, by decide,
    C10_reset_unconditional env_genfail
      { messages := [umsg 1], memory := some "old profile" } 4 [umsg 2]
      (by decide) (by decide) rfl (by decide)⟩

end Aura
